import Mathlib

/-!
Shallow embedding of `misc/obs/obs_config.py` (the OBS package
reconciliation tool).  Pure data (the parsed ini configuration, the
remote snapshot) is passed explicitly; the remote transport and the
filesystem are parameters (`transport : String → Bool`,
`fs : String → Option String`); the fatal `ERROR` wrapper is modelled by
the `Except.error` constructor, and the process exit it performs is
modelled separately by `ERROR`.  Logging text is abstracted away except
where a claim depends on it (the error log emitted by the unsupported
branch of the main loop is recorded in the run state).
-/

namespace ObsConfig

/-- Global constant `version_in_progress = "1.3.7"` (source line 23). -/
def version_in_progress : String := "1.3.7"

/-- Branch version derived in `__init__` from semver parse: major.minor. -/
def branchVer : String := "1.3"

/-- Micro release derived in `__init__`: the patch component. -/
def microVer : String := "7"

/-- OBS project key built in `__init__` (source line 57). -/
def obsProject : String := "OpenHPC:" ++ branchVer ++ ":Update" ++ microVer ++ ":Factory"

/-- Per-package attributes as read from the ini file through
`configparser.getboolean(..., fallback=False)` and the optional
`compiler_families` override (`queryCompilers`, source lines 289-300).
A package with no section at all behaves as all-defaults. -/
structure PackageAttrs where
  compiler_dep : Bool := false
  mpi_dep : Bool := false
  compiler_families : Option (List String) := none
deriving Repr, DecidableEq

/-- The in-memory configuration the tool builds in `parseConfig`
(source lines 61-156): template paths, family lists, skip patterns,
groups, per-package attribute sections and the component list
(`query_components`, with the version prefix already stripped). -/
structure Manifest where
  serviceFile : String
  linkFile_compiler : String
  compilerFamilies : List String
  mpiFamilies : List String
  noBuildPatterns : List (String × List String)
  groups : List (String × List String)
  attrs : List (String × PackageAttrs)
  components : List String
deriving Repr, DecidableEq

/-- Attribute lookup with configparser fallback-to-default semantics. -/
def getAttrs (m : Manifest) (package : String) : PackageAttrs :=
  (m.attrs.lookup package).getD {}

/-- `self.parentCompiler = self.compilerFamilies[0]` (source line 92). -/
def parentCompiler (m : Manifest) : String :=
  m.compilerFamilies.headD ""

/-- `isStandalone` (source lines 208-219): true when neither flag is set. -/
def isStandalone (m : Manifest) (package : String) : Bool :=
  let a := getAttrs m package
  !(a.compiler_dep || a.mpi_dep)

/-- `isCompilerDep` (source lines 223-234): compiler_dep and not mpi_dep. -/
def isCompilerDep (m : Manifest) (package : String) : Bool :=
  let a := getAttrs m package
  a.compiler_dep && !a.mpi_dep

/-- `isMPIDep` (source lines 238-247): mpi_dep alone decides. -/
def isMPIDep (m : Manifest) (package : String) : Bool :=
  (getAttrs m package).mpi_dep

/-- `checkPackageGroup` (source lines 252-260): first group whose member
list contains the package, in group declaration order; `none` models the
fatal `ERROR` exit taken when no group matches. -/
def checkPackageGroup : List (String × List String) → String → Option String
  | [], _ => none
  | (g, members) :: rest, package =>
    if package ∈ members then some g else checkPackageGroup rest package

/-- `disableBuild` (source lines 275-284): false when the architecture has
no configured pattern list, otherwise true iff some pattern matches the
package name under the external regex search (`re.search`), which is
passed in as `search`. -/
def disableBuild (search : String → String → Bool) (m : Manifest)
    (package arch : String) : Bool :=
  match m.noBuildPatterns.lookup arch with
  | none => false
  | some pats => pats.any (fun pat => search pat package)

/-- `queryCompilers` (source lines 289-300): the package-level
`compiler_families` override when declared, else the global list. -/
def queryCompilers (m : Manifest) (package : String) : List String :=
  match (getAttrs m package).compiler_families with
  | some families => families
  | none => m.compilerFamilies

/-- External collaborators of the worker object: the parsed manifest, the
filesystem (`os.path.isfile` + `open().read()` as one partial map), the
regex engine and the command transport (`subprocess.check_output`; true
means the command succeeded). -/
structure Env where
  m : Manifest
  fs : String → Option String
  search : String → String → Bool
  transport : String → Bool

/-- Decision record for one package creation: the arguments `addPackage`
was invoked with, plus the two architecture-disable decisions it derives
from `disableBuild` for the `_meta` file (source lines 332-343). -/
structure CreateAction where
  identity : String
  is_parent : Bool
  compiler : Option String
  parentName : Option String
  gitName : Option String
  disable_aarch64 : Bool
  disable_x86_64 : Bool
deriving Repr, DecidableEq

/-- The CreateAction record `addPackage` assembles for a given call. -/
def mkCreateAction (env : Env) (package : String) (parent : Bool)
    (compiler parentName gitName : Option String) : CreateAction :=
  { identity := package
    is_parent := parent
    compiler := compiler
    parentName := parentName
    gitName := gitName
    disable_aarch64 := disableBuild env.search env.m package "aarch64"
    disable_x86_64 := disableBuild env.search env.m package "x86_64" }

/-- Observable state accumulated across a run: `checks` records every
presence test against the remote snapshot in order (ghost
instrumentation), `creates` the CreateActions in order, `skips` the
identities found present, `buildsToCancel` the pending-lock list
(source line 459), `remoteCommands` every remote mutation actually
issued, and `errorLogs` the non-fatal `logging.error` lines. -/
structure RunState where
  checks : List String := []
  creates : List CreateAction := []
  skips : List String := []
  buildsToCancel : List String := []
  remoteCommands : List String := []
  errorLogs : List String := []
deriving Repr, DecidableEq

/-- Remote PUT command issued through `osc api` (source lines 350, 370,
402, 442). -/
def putCmd (package file : String) : String :=
  "osc api -f -X PUT /source/" ++ obsProject ++ "/" ++ package ++ "/" ++ file

/-- Remote lock command issued in `cancelNewBuilds` (source line 473). -/
def lockCmd (package : String) : String :=
  "osc lock " ++ obsProject ++ " " ++ package

/-- One guarded remote mutation: in dry-run mode nothing is issued and the
transport is never consulted; otherwise the command is issued and a
transport failure is fatal (the source wraps `subprocess.check_output`
in try/except and calls `ERROR`). -/
def issue (dryRun : Bool) (transport : String → Bool) (st : RunState)
    (cmd errMsg : String) : Except String RunState :=
  if dryRun then .ok st
  else if transport cmd then
    .ok { st with remoteCommands := st.remoteCommands ++ [cmd] }
  else .error errMsg

/-- `addPackage` (source lines 304-459), faithful to the order of its
side conditions: (1) the `_service` template file is read on every call,
parent or child, failing fatally when missing; (2) the group lookup runs
only for parent packages, on `gitName` when given else on the package
name; (3) the `_meta` PUT, (4) the marker-file PUT, (5) for parents the
`_service` PUT, for children the `_link` template read (failing fatally
when missing) followed by the `_link` PUT; (6) the package is appended
to `buildsToCancel`.  The temp-file XML/template text is abstracted; the
architecture enable/disable decisions it contains are kept in the
CreateAction. -/
def addPackage (env : Env) (dryRun : Bool) (st : RunState) (package : String)
    (parent : Bool) (isCompDep : Bool)
    (compiler parentName gitName : Option String) : Except String RunState :=
  match env.fs env.m.serviceFile with
  | none => .error "Unable to read _service file template"
  | some _ =>
    match (if parent then
             match checkPackageGroup env.m.groups (gitName.getD package) with
             | some _ => Except.ok ()
             | none =>
               Except.error ("package " ++ gitName.getD package ++
                 " not assocated with any groups, please check config")
           else Except.ok ()) with
    | .error e => .error e
    | .ok _ =>
      match issue dryRun env.transport
          { st with creates :=
              st.creates ++ [mkCreateAction env package parent compiler parentName gitName] }
          (putCmd package "_meta")
          ("Unable to add new package (" ++ package ++ ") to OBS") with
      | .error e => .error e
      | .ok st2 =>
        match issue dryRun env.transport st2 (putCmd package "_obs_config_ready_for_build")
            ("Unable to add marker file for package (" ++ package ++ ") to OBS") with
        | .error e => .error e
        | .ok st3 =>
          match (if parent then
                   issue dryRun env.transport st3 (putCmd package "_service")
                     ("Unable to add _service file for package (" ++ package ++ ") to OBS")
                 else
                   if isCompDep then
                     match env.fs env.m.linkFile_compiler with
                     | none => Except.error "Unable to read _link file template"
                     | some _ =>
                       issue dryRun env.transport st3 (putCmd package "_link")
                         ("Unable to add _link file for package (" ++ package ++ ") to OBS")
                   else Except.error "linkFile referenced before assignment") with
          | .error e => .error e
          | .ok st4 => .ok { st4 with buildsToCancel := st4.buildsToCancel ++ [package] }

/-- Record one presence check against the remote snapshot (ghost). -/
def checksAdd (st : RunState) (x : String) : RunState :=
  { st with checks := st.checks ++ [x] }

/-- Record one skip (identity already present). -/
def skipsAdd (st : RunState) (x : String) : RunState :=
  { st with skips := st.skips ++ [x] }

/-- The `else` arm of the main reconciliation loop (source lines 556-557):
`logging.error(...)` only — it does not call the fatal `ERROR` wrapper,
so the loop continues with the next package. -/
def unsupportedBranch (st : RunState) : Except String RunState :=
  .ok { st with errorLogs :=
    st.errorLogs ++ ["Unsupported compiler/MPI dependency configuration"] }

/-- Child sweep of the compiler-dependent branch (source lines 542-551):
for each family in order, the parent compiler is skipped, present
children are skipped, absent children are added via `addPackage` with
`parent=False`, `compiler` set and `parentName` the parent identity. -/
def childLoop (env : Env) (dryRun : Bool) (obsPackages : List String)
    (package parentIdent : String) :
    List String → RunState → Except String RunState
  | [], st => .ok st
  | compiler :: rest, st =>
    if compiler == parentCompiler env.m then
      childLoop env dryRun obsPackages package parentIdent rest st
    else
      let child := package ++ "-" ++ compiler
      if child ∈ obsPackages then
        childLoop env dryRun obsPackages package parentIdent rest
          (skipsAdd (checksAdd st child) child)
      else
        match addPackage env dryRun (checksAdd st child) child false true
            (some compiler) (some parentIdent) none with
        | .error e => .error e
        | .ok st2 => childLoop env dryRun obsPackages package parentIdent rest st2

/-- One iteration of the main loop (source lines 521-557): classify the
package; a standalone package is checked and added with no suffix; a
compiler-dependent package has its parent identity
(base + "-" + parent compiler) checked first, then each non-parent
family of `queryCompilers` as children; an MPI-dependent package is only
logged; the final `else` is `unsupportedBranch`. -/
def processPackage (env : Env) (dryRun : Bool) (obsPackages : List String)
    (st : RunState) (package : String) : Except String RunState :=
  if isStandalone env.m package then
    if package ∈ obsPackages then
      .ok (skipsAdd (checksAdd st package) package)
    else
      addPackage env dryRun (checksAdd st package) package true false none none none
  else if isCompilerDep env.m package then
    let parentIdent := package ++ "-" ++ parentCompiler env.m
    let compilers := queryCompilers env.m package
    match (if parentIdent ∈ obsPackages then
             Except.ok (skipsAdd (checksAdd st parentIdent) parentIdent)
           else
             addPackage env dryRun (checksAdd st parentIdent) parentIdent true true
               none none (some package)) with
    | .error e => .error e
    | .ok st2 => childLoop env dryRun obsPackages package parentIdent compilers st2
  else if isMPIDep env.m package then
    .ok st
  else
    unsupportedBranch st

/-- The main loop folded over the component list. -/
def reconcileList (env : Env) (dryRun : Bool) (obsPackages : List String) :
    List String → RunState → Except String RunState
  | [], st => .ok st
  | p :: rest, st =>
    match processPackage env dryRun obsPackages st p with
    | .error e => .error e
    | .ok st1 => reconcileList env dryRun obsPackages rest st1

/-- Full reconciliation pass of `main` before the lock flush. -/
def reconcile (env : Env) (dryRun : Bool) (obsPackages : List String) :
    Except String RunState :=
  reconcileList env dryRun obsPackages env.m.components {}

/-- `cancelNewBuilds` (source lines 461-484): walks the pending-lock list
in order; in dry-run mode only logs; otherwise issues the lock command
and on transport failure calls the fatal `ERROR` wrapper immediately
(its message is the copy-pasted "_link" text of the source).  Returns
the lock commands actually issued and the fatal error, if any. -/
def cancelNewBuilds (env : Env) (dryRun : Bool) :
    List String → List String × Option String
  | [] => ([], none)
  | package :: rest =>
    if dryRun then cancelNewBuilds env dryRun rest
    else if env.transport (lockCmd package) then
      let r := cancelNewBuilds env dryRun rest
      (lockCmd package :: r.1, r.2)
    else
      ([lockCmd package],
       some ("Unable to add _link file for package (" ++ package ++ ") to OBS"))

/-- Whole run of `main` after configuration: reconciliation followed by
the end-of-run lock flush. -/
def fullRun (env : Env) (dryRun : Bool) (obsPackages : List String) :
    Except String RunState :=
  match reconcile env dryRun obsPackages with
  | .error e => .error e
  | .ok st =>
    match cancelNewBuilds env dryRun st.buildsToCancel with
    | (cmds, none) => .ok { st with remoteCommands := st.remoteCommands ++ cmds }
    | (_, some e) => .error e

/-- Raw sections of the ini file after the external `configparser` /
`ast.literal_eval` layer has parsed them; `parseConfig` consumes this. -/
structure ConfigData where
  dry_run : Bool := true
  service_template : String
  link_compiler_template : String
  compiler_families : List String
  mpi_families : List String
  skip_aarch : Option (List String) := none
  skip_x86 : Option (List String) := none
  groups : List (String × List String)
  attrs : List (String × PackageAttrs) := []
  components : List String := []
deriving Repr

/-- `parseConfig` (source lines 61-156) composed with `query_components`:
checks that the config file exists and parses (`parseIni` stands for the
external configparser), validates non-empty family lists and a non-empty
group section, and assembles the Manifest.  The returned list records
every filesystem path the load touches: the config file is the only one
— template paths are stored, their contents are not read here. -/
def parseConfig (fs : String → Option String)
    (parseIni : String → Option ConfigData) (cfgFile : String) :
    Except String (Manifest × Bool × List String) :=
  match fs cfgFile with
  | none => .error "--> unable to access input file"
  | some raw =>
    match parseIni raw with
    | none => .error "ERROR; Unable to parse runtime config file"
    | some cfg =>
      if cfg.compiler_families.isEmpty then
        .error "Unable to parse global settings"
      else if cfg.mpi_families.isEmpty then
        .error "Unable to parse global settings"
      else if cfg.groups.isEmpty then
        .error "Unable to parse [group] names"
      else
        .ok ({ serviceFile := cfg.service_template
               linkFile_compiler := cfg.link_compiler_template
               compilerFamilies := cfg.compiler_families
               mpiFamilies := cfg.mpi_families
               noBuildPatterns :=
                 (match cfg.skip_aarch with
                  | some l => [("aarch64", l)]
                  | none => []) ++
                 (match cfg.skip_x86 with
                  | some l => [("x86_64", l)]
                  | none => [])
               groups := cfg.groups
               attrs := cfg.attrs
               components := cfg.components },
             cfg.dry_run, [cfgFile])

/-- Result of the fatal `ERROR` wrapper (source lines 28-30): the message
is logged and `sys.exit()` is called with no argument, which raises
`SystemExit(None)` and terminates the process with exit status 0. -/
structure ProcessExit where
  logged : String
  exitCode : Nat
deriving Repr, DecidableEq

/-- The `ERROR` wrapper: log, then `sys.exit()` — exit status 0. -/
def ERROR (output : String) : ProcessExit :=
  { logged := output, exitCode := 0 }

/-- Identities created so far, in creation order. -/
def createdNames (st : RunState) : List String :=
  st.creates.map (fun a => a.identity)

end ObsConfig

namespace ObsConfig

/-! Helper lemmas about `issue`. -/

theorem issue_dry (transport : String → Bool) (st : RunState) (cmd errMsg : String) :
    issue true transport st cmd errMsg = .ok st := rfl

theorem issue_ok_fields {dryRun : Bool} {transport : String → Bool}
    {st st' : RunState} {cmd errMsg : String}
    (h : issue dryRun transport st cmd errMsg = .ok st') :
    st'.checks = st.checks ∧ st'.creates = st.creates ∧ st'.skips = st.skips ∧
    st'.buildsToCancel = st.buildsToCancel ∧ st'.errorLogs = st.errorLogs := by
  unfold issue at h
  split at h
  · cases h; exact ⟨rfl, rfl, rfl, rfl, rfl⟩
  · split at h
    · cases h; exact ⟨rfl, rfl, rfl, rfl, rfl⟩
    · cases h

theorem issue_of_transport (dryRun : Bool) {transport : String → Bool}
    (st : RunState) (cmd errMsg : String) (h : transport cmd = true) :
    ∃ st', issue dryRun transport st cmd errMsg = .ok st' ∧
      st'.checks = st.checks ∧ st'.creates = st.creates ∧ st'.skips = st.skips ∧
      st'.buildsToCancel = st.buildsToCancel ∧ st'.errorLogs = st.errorLogs := by
  cases dryRun with
  | true => exact ⟨st, rfl, rfl, rfl, rfl, rfl, rfl⟩
  | false =>
    refine ⟨{ st with remoteCommands := st.remoteCommands ++ [cmd] }, ?_, rfl, rfl, rfl, rfl, rfl⟩
    simp [issue, h]

end ObsConfig

namespace ObsConfig

/-! Concrete instances used by witnesses and counterexamples. -/

/-- Is the first character list a prefix of the second? -/
def listIsPre : List Char → List Char → Bool
  | [], _ => true
  | _ :: _, [] => false
  | a :: as, b :: bs => a == b && listIsPre as bs

/-- Does the first character list occur inside the second? -/
def listSub : List Char → List Char → Bool
  | pat, [] => listIsPre pat []
  | pat, s :: rest => listIsPre pat (s :: rest) || listSub pat rest

/-- Substring matcher standing in for `re.search` on a literal pattern. -/
def searchSub : String → String → Bool :=
  fun pat pkg => listSub pat.toList pkg.toList

/-- Small concrete manifest with one x86_64 skip pattern. -/
def mWit : Manifest :=
  { serviceFile := "service.tmpl"
    linkFile_compiler := "link.tmpl"
    compilerFamilies := ["gnu9", "llvm"]
    mpiFamilies := ["mpich"]
    noBuildPatterns := [("x86_64", ["gnu"])]
    groups := [("core", ["a", "b", "foo"])]
    attrs := []
    components := ["a", "b"] }

/-- Environment whose transport fails exactly on the lock command for "a". -/
def envLockFail : Env :=
  { m := mWit
    fs := fun _ => some "tmpl"
    search := fun _ _ => false
    transport := fun c => c != lockCmd "a" }

/-- C4: for an architecture of the fixed set, `disableBuild` returns true
iff some configured skip pattern for that architecture matches (regex
search) against the identity's full name, and an architecture with no
configured pattern list is always enabled. -/
theorem disableBuild_iff_pattern_match (search : String → String → Bool)
    (m : Manifest) (package arch : String)
    (_harch : arch = "aarch64" ∨ arch = "x86_64") :
    (disableBuild search m package arch = true ↔
      ∃ pats, m.noBuildPatterns.lookup arch = some pats ∧
        ∃ pat ∈ pats, search pat package = true)
    ∧ (m.noBuildPatterns.lookup arch = none →
        disableBuild search m package arch = false) := by

  constructor
  · unfold disableBuild
    cases h : m.noBuildPatterns.lookup arch with
    | none => simp
    | some pats => simp [List.any_eq_true]
  · intro h
    unfold disableBuild
    simp [h]

/-- C4 witness: the spec's own example, pattern "gnu" for x86_64 against
package "foo-gnu9" (substring search): the x86_64 build is disabled and
aarch64, which has no configured patterns, stays enabled. -/
theorem disableBuild_iff_pattern_match_witness :
    (("x86_64" = "aarch64" ∨ "x86_64" = "x86_64")
      ∧ ((disableBuild searchSub mWit "foo-gnu9" "x86_64" = true ↔
          ∃ pats, mWit.noBuildPatterns.lookup "x86_64" = some pats ∧
            ∃ pat ∈ pats, searchSub pat "foo-gnu9" = true)
        ∧ (mWit.noBuildPatterns.lookup "x86_64" = none →
            disableBuild searchSub mWit "foo-gnu9" "x86_64" = false)))
    ∧ disableBuild searchSub mWit "foo-gnu9" "x86_64" = true
    ∧ disableBuild searchSub mWit "foo-gnu9" "aarch64" = false :=
  ⟨⟨Or.inr rfl,
    disableBuild_iff_pattern_match searchSub mWit "foo-gnu9" "x86_64" (Or.inr rfl)⟩,
   by decide, by decide⟩

/-- C7 (amended): for every combination of the two flags exactly one of
Standalone / CompilerDependent / MPIDependent holds, so the final `else`
of the main loop is unreachable; that arm, were it ever executed, logs
an error line and continues with the next package (it returns normally
instead of terminating the process). -/
theorem classification_total_unsupported_unreachable :
    (∀ (m : Manifest) (p : String),
        (isStandalone m p || isCompilerDep m p || isMPIDep m p) = true
      ∧ (isStandalone m p && isCompilerDep m p) = false
      ∧ (isStandalone m p && isMPIDep m p) = false
      ∧ (isCompilerDep m p && isMPIDep m p) = false)
    ∧ (∀ st : RunState, unsupportedBranch st =
        .ok { st with errorLogs :=
          st.errorLogs ++ ["Unsupported compiler/MPI dependency configuration"] }) := by
  constructor
  · intro m p
    unfold isStandalone isCompilerDep isMPIDep
    cases h1 : (getAttrs m p).compiler_dep <;>
      cases h2 : (getAttrs m p).mpi_dep <;> simp [h1, h2]
  · intro st
    rfl

/-- C7 counterexample: the `else` arm of the reconciliation loop (source
line 557) uses `logging.error`, not the fatal `ERROR` wrapper: on the
empty run state it returns normally with an error log, refuting
"treated as a fatal ConfigError (the process terminates rather than
continuing)". -/
theorem unsupported_branch_nonfatal_counterexample :
    unsupportedBranch {} =
      .ok { errorLogs := ["Unsupported compiler/MPI dependency configuration"] } := rfl

/-- C8: at a failing input (filesystem without the config file) the load
path fails through the fatal `ERROR` wrapper; `ERROR` logs the message
and calls `sys.exit()` with no argument, so the process exit status is
0 — not the non-zero failure status the spec states. -/
theorem error_exit_status_zero :
    parseConfig (fun _ => none) (fun _ => none) "config" =
      .error "--> unable to access input file"
    ∧ ERROR "--> unable to access input file" =
      { logged := "--> unable to access input file", exitCode := 0 } :=
  ⟨rfl, rfl⟩

/-- C5 counterexample: two identities are pending ("a" then "b"); the
transport fails on the lock request for "a".  The flush attempts only
that first lock and stops with the fatal error — the hold for "b" is
never attempted, refuting best-effort continuation over the rest of the
pending-lock set. -/
theorem lock_flush_failfast_counterexample :
    cancelNewBuilds envLockFail false ["a", "b"] =
      ([lockCmd "a"], some "Unable to add _link file for package (a) to OBS")
    ∧ lockCmd "b" ∉ [lockCmd "a"] := by
  constructor
  · rfl
  · decide

/-- C5 (amended): during the end-of-run lock flush, the first transport
failure is fatal: the lock commands attempted are exactly those for the
identities before the failing one plus the failing one itself, the
remaining identities are never attempted, and only that first failure is
surfaced (via the fatal ERROR wrapper). -/
theorem lock_flush_failfast (env : Env) (pre : List String) (p : String)
    (rest : List String)
    (hpre : ∀ q ∈ pre, env.transport (lockCmd q) = true)
    (h : env.transport (lockCmd p) = false) :
    cancelNewBuilds env false (pre ++ p :: rest) =
      (pre.map lockCmd ++ [lockCmd p],
       some ("Unable to add _link file for package (" ++ p ++ ") to OBS")) := by
  induction pre with
  | nil =>
    unfold cancelNewBuilds
    simp [h]
  | cons q qs ih =>
    have hq : env.transport (lockCmd q) = true := hpre q (by simp)
    have ih' := ih (fun r hr => hpre r (by simp [hr]))
    unfold cancelNewBuilds
    simp [hq, ih']

/-- C5 witness for the amended theorem, at the concrete failing setup. -/
theorem lock_flush_failfast_witness :
    ((∀ q ∈ ([] : List String), envLockFail.transport (lockCmd q) = true)
      ∧ envLockFail.transport (lockCmd "a") = false)
    ∧ cancelNewBuilds envLockFail false ([] ++ "a" :: ["b"]) =
        (([] : List String).map lockCmd ++ [lockCmd "a"],
         some ("Unable to add _link file for package (" ++ "a" ++ ") to OBS")) :=
  ⟨⟨by simp, by decide⟩,
   lock_flush_failfast envLockFail [] "a" ["b"] (by simp) (by decide)⟩

end ObsConfig

namespace ObsConfig

/-- Parsed ini content for the C6 scenario: a well-formed config whose
service template path will not exist on the filesystem. -/
def cfgNoTmpl : ConfigData :=
  { service_template := "service.tmpl"
    link_compiler_template := "link.tmpl"
    compiler_families := ["gnu9"]
    mpi_families := ["mpich"]
    groups := [("core", ["foo"])]
    attrs := []
    components := ["foo"] }

/-- Manifest that loading `cfgNoTmpl` produces. -/
def mNoTmpl : Manifest :=
  { serviceFile := "service.tmpl"
    linkFile_compiler := "link.tmpl"
    compilerFamilies := ["gnu9"]
    mpiFamilies := ["mpich"]
    noBuildPatterns := []
    groups := [("core", ["foo"])]
    attrs := []
    components := ["foo"] }

/-- Filesystem containing only the config file — no template files. -/
def fsOnlyConfig : String → Option String :=
  fun p => if p == "config" then some "ini-text" else none

/-- Environment whose filesystem lacks both template files. -/
def envNoTmpl : Env :=
  { m := mNoTmpl
    fs := fun _ => none
    search := fun _ _ => false
    transport := fun _ => true }

/-- Environment whose filesystem has the service template but not the
compiler link template. -/
def envNoLink : Env :=
  { m := mNoTmpl
    fs := fun p => if p == "service.tmpl" then some "svc" else none
    search := fun _ _ => false
    transport := fun _ => true }

/-- C6 counterexample: the referenced service template is absent from the
filesystem, yet loading succeeds and reads only the config file — there
is no TemplateError at load time, refuting eager template loading. -/
theorem load_missing_template_succeeds_counterexample :
    fsOnlyConfig "service.tmpl" = none
    ∧ parseConfig fsOnlyConfig (fun _ => some cfgNoTmpl) "config" =
        .ok (mNoTmpl, true, ["config"]) :=
  ⟨rfl, rfl⟩

/-- C6 (amended): manifest loading reads exactly the declarative source
and nothing else (its result depends on the filesystem only at the
config path, and the paths it reads are just the config file); template
contents are not read or cached at load time.  Template files are read
lazily inside `addPackage`: a missing service template is fatal at any
package creation, and a missing compiler link template is fatal at a
child creation. -/
theorem load_reads_only_config_templates_lazy :
    (∀ (fs : String → Option String) (parseIni : String → Option ConfigData)
        (cfgFile : String) (m : Manifest) (dr : Bool) (reads : List String),
        parseConfig fs parseIni cfgFile = .ok (m, dr, reads) → reads = [cfgFile])
    ∧ (∀ (fs fs' : String → Option String) (parseIni : String → Option ConfigData)
        (cfgFile : String), fs cfgFile = fs' cfgFile →
        parseConfig fs parseIni cfgFile = parseConfig fs' parseIni cfgFile)
    ∧ (∀ (env : Env) (dryRun : Bool) (st : RunState) (package : String)
        (parent isCompDep : Bool) (compiler parentName gitName : Option String),
        env.fs env.m.serviceFile = none →
        addPackage env dryRun st package parent isCompDep compiler parentName gitName =
          .error "Unable to read _service file template")
    ∧ (∀ (env : Env) (st : RunState) (package : String)
        (compiler parentName gitName : Option String) (sc : String),
        env.fs env.m.serviceFile = some sc →
        env.fs env.m.linkFile_compiler = none →
        addPackage env true st package false true compiler parentName gitName =
          .error "Unable to read _link file template") := by
  refine ⟨?_, ?_, ?_, ?_⟩
  · intro fs parseIni cfgFile m dr reads h
    unfold parseConfig at h
    split at h
    · cases h
    · split at h
      · cases h
      · split at h
        · cases h
        · split at h
          · cases h
          · split at h
            · cases h
            · cases h; rfl
  · intro fs fs' parseIni cfgFile h
    unfold parseConfig
    rw [h]
  · intro env dryRun st package parent isCompDep compiler parentName gitName h
    unfold addPackage
    rw [h]
  · intro env st package compiler parentName gitName sc h1 h2
    unfold addPackage
    rw [h1]
    simp [issue, h2]

/-- C6 witness for the amended theorem at concrete inputs: the load of
the C6 config reads only "config", and a child addPackage against a
filesystem missing the link template fails with the template error. -/
theorem load_reads_only_config_templates_lazy_witness :
    (parseConfig fsOnlyConfig (fun _ => some cfgNoTmpl) "config" =
        .ok (mNoTmpl, true, ["config"])
      ∧ ["config"] = ["config"])
    ∧ (envNoTmpl.fs envNoTmpl.m.serviceFile = none
      ∧ addPackage envNoTmpl true {} "foo" true false none none none =
          .error "Unable to read _service file template")
    ∧ (envNoLink.fs envNoLink.m.serviceFile = some "svc"
      ∧ envNoLink.fs envNoLink.m.linkFile_compiler = none
      ∧ addPackage envNoLink true {} "foo-llvm" false true (some "llvm")
          (some "foo-gnu9") none = .error "Unable to read _link file template") :=
  ⟨⟨rfl, load_reads_only_config_templates_lazy.1 fsOnlyConfig
      (fun _ => some cfgNoTmpl) "config" mNoTmpl true ["config"] rfl⟩,
   ⟨rfl, load_reads_only_config_templates_lazy.2.2.1 envNoTmpl true {} "foo"
      true false none none none rfl⟩,
   ⟨rfl, rfl, load_reads_only_config_templates_lazy.2.2.2 envNoLink {} "foo-llvm"
      (some "llvm") (some "foo-gnu9") none "svc" rfl rfl⟩⟩

end ObsConfig

namespace ObsConfig

/-- Any successful `addPackage` call appends exactly its own CreateAction
and its pending-lock entry, and leaves checks, skips and error logs
untouched (no hypotheses about transport or templates needed: success
implies they all held). -/
theorem addPackage_ok_inv {env : Env} {dryRun : Bool} {st st' : RunState}
    {package : String} {parent isCompDep : Bool}
    {compiler parentName gitName : Option String}
    (h : addPackage env dryRun st package parent isCompDep compiler parentName gitName
        = .ok st') :
    st'.checks = st.checks ∧
    st'.creates = st.creates ++
      [mkCreateAction env package parent compiler parentName gitName] ∧
    st'.skips = st.skips ∧
    st'.buildsToCancel = st.buildsToCancel ++ [package] ∧
    st'.errorLogs = st.errorLogs := by
  unfold addPackage at h
  split at h
  · cases h
  · split at h
    · cases h
    · split at h
      · cases h
      · rename_i st2 hmeta
        split at h
        · cases h
        · rename_i st3 hmarker
          split at h
          · cases h
          · rename_i st4 hstep2
            cases h
            obtain ⟨c1, c2, c3, c4, c5⟩ := issue_ok_fields hmeta
            obtain ⟨d1, d2, d3, d4, d5⟩ := issue_ok_fields hmarker
            have hst4 : st4.checks = st3.checks ∧ st4.creates = st3.creates ∧
                st4.skips = st3.skips ∧ st4.buildsToCancel = st3.buildsToCancel ∧
                st4.errorLogs = st3.errorLogs := by
              split at hstep2
              · exact issue_ok_fields hstep2
              · split at hstep2
                · split at hstep2
                  · cases hstep2
                  · exact issue_ok_fields hstep2
                · cases hstep2
            obtain ⟨e1, e2, e3, e4, e5⟩ := hst4
            refine ⟨?_, ?_, ?_, ?_, ?_⟩ <;>
              simp [e1, e2, e3, e4, e5, d1, d2, d3, d4, d5, c1, c2, c3, c4, c5]

end ObsConfig

namespace ObsConfig

/-- With the required template(s) readable, a group for parent calls, and
a transport that succeeds, `addPackage` succeeds and its effect on the
decision fields is exactly: one CreateAction and one pending-lock entry
appended. -/
theorem addPackage_ok (env : Env) (dryRun : Bool) (st : RunState) (package : String)
    (parent isCompDep : Bool) (compiler parentName gitName : Option String)
    (hserv : ∃ s, env.fs env.m.serviceFile = some s)
    (hgroup : parent = true →
      ∃ g, checkPackageGroup env.m.groups (gitName.getD package) = some g)
    (hchild : parent = false → isCompDep = true ∧
      ∃ s, env.fs env.m.linkFile_compiler = some s)
    (htr : ∀ c, env.transport c = true) :
    ∃ st', addPackage env dryRun st package parent isCompDep compiler parentName gitName
        = .ok st' ∧
      st'.checks = st.checks ∧
      st'.creates = st.creates ++
        [mkCreateAction env package parent compiler parentName gitName] ∧
      st'.skips = st.skips ∧
      st'.buildsToCancel = st.buildsToCancel ++ [package] ∧
      st'.errorLogs = st.errorLogs := by
  obtain ⟨s, hs⟩ := hserv
  cases parent with
  | true =>
    obtain ⟨g, hg⟩ := hgroup rfl
    obtain ⟨st2, h2, c1, c2, c3, c4, c5⟩ := issue_of_transport dryRun
      { st with creates :=
          st.creates ++ [mkCreateAction env package true compiler parentName gitName] }
      (putCmd package "_meta")
      ("Unable to add new package (" ++ package ++ ") to OBS") (htr _)
    obtain ⟨st3, h3, d1, d2, d3, d4, d5⟩ := issue_of_transport dryRun st2
      (putCmd package "_obs_config_ready_for_build")
      ("Unable to add marker file for package (" ++ package ++ ") to OBS") (htr _)
    obtain ⟨st4, h4, e1, e2, e3, e4, e5⟩ := issue_of_transport dryRun st3
      (putCmd package "_service")
      ("Unable to add _service file for package (" ++ package ++ ") to OBS") (htr _)
    refine ⟨{ st4 with buildsToCancel := st4.buildsToCancel ++ [package] },
      ?_, ?_, ?_, ?_, ?_, ?_⟩
    · unfold addPackage
      rw [hs]
      simp only [hg, if_true, h2, h3, h4]
    · simpa [e1, d1] using c1
    · rw [e2, d2, c2]
    · simpa [e3, d3] using c3
    · simp only [e4, d4]
      simpa using c4
    · simpa [e5, d5] using c5
  | false =>
    obtain ⟨hic, s2, hl⟩ := hchild rfl
    subst hic
    obtain ⟨st2, h2, c1, c2, c3, c4, c5⟩ := issue_of_transport dryRun
      { st with creates :=
          st.creates ++ [mkCreateAction env package false compiler parentName gitName] }
      (putCmd package "_meta")
      ("Unable to add new package (" ++ package ++ ") to OBS") (htr _)
    obtain ⟨st3, h3, d1, d2, d3, d4, d5⟩ := issue_of_transport dryRun st2
      (putCmd package "_obs_config_ready_for_build")
      ("Unable to add marker file for package (" ++ package ++ ") to OBS") (htr _)
    obtain ⟨st4, h4, e1, e2, e3, e4, e5⟩ := issue_of_transport dryRun st3
      (putCmd package "_link")
      ("Unable to add _link file for package (" ++ package ++ ") to OBS") (htr _)
    refine ⟨{ st4 with buildsToCancel := st4.buildsToCancel ++ [package] },
      ?_, ?_, ?_, ?_, ?_, ?_⟩
    · unfold addPackage
      rw [hs]
      simp only [Bool.false_eq_true, if_false, if_true, hl, h2, h3, h4]
    · simpa [e1, d1] using c1
    · rw [e2, d2, c2]
    · simpa [e3, d3] using c3
    · simp only [e4, d4]
      simpa using c4
    · simpa [e5, d5] using c5

end ObsConfig

namespace ObsConfig

/-- Families of a compiler list other than the parent compiler, in order
(the ones the child sweep acts on). -/
def nonParentFamilies (m : Manifest) (compilers : List String) : List String :=
  compilers.filter (fun c => !(c == parentCompiler m))

/-- Child identity name: base-name + "-" + compiler family. -/
def childName (package c : String) : String := package ++ "-" ++ c

/-- Families whose child identity is absent from the remote snapshot. -/
def absentChildren (obsPackages : List String) (package : String)
    (fams : List String) : List String :=
  fams.filter (fun c => !(decide (childName package c ∈ obsPackages)))

/-- Complete characterization of the child sweep when both templates are
readable and the transport succeeds: it checks every non-parent family's
child identity in list order, creates exactly the absent ones (in that
same order, as children of `parentIdent`), and queues them for locking. -/
theorem childLoop_ok (env : Env) (dryRun : Bool) (obsPackages : List String)
    (package parentIdent : String)
    (hserv : ∃ s, env.fs env.m.serviceFile = some s)
    (hlink : ∃ s, env.fs env.m.linkFile_compiler = some s)
    (htr : ∀ c, env.transport c = true) :
    ∀ (compilers : List String) (st : RunState),
      ∃ st', childLoop env dryRun obsPackages package parentIdent compilers st
          = .ok st' ∧
        st'.checks = st.checks ++
          (nonParentFamilies env.m compilers).map (childName package) ∧
        st'.creates = st.creates ++
          (absentChildren obsPackages package (nonParentFamilies env.m compilers)).map
            (fun c => mkCreateAction env (childName package c) false (some c)
              (some parentIdent) none) ∧
        st'.buildsToCancel = st.buildsToCancel ++
          (absentChildren obsPackages package (nonParentFamilies env.m compilers)).map
            (childName package) ∧
        st'.errorLogs = st.errorLogs := by
  intro compilers
  induction compilers with
  | nil =>
    intro st
    exact ⟨st, rfl, by simp [nonParentFamilies],
      by simp [nonParentFamilies, absentChildren],
      by simp [nonParentFamilies, absentChildren], rfl⟩
  | cons c rest ih =>
    intro st
    by_cases hc : (c == parentCompiler env.m) = true
    · obtain ⟨st', hrun, f1, f2, f3, f4⟩ := ih st
      refine ⟨st', ?_, ?_, ?_, ?_, f4⟩
      · simp only [childLoop, hc, if_true]
        exact hrun
      · simpa [nonParentFamilies, hc] using f1
      · simpa [nonParentFamilies, hc] using f2
      · simpa [nonParentFamilies, hc] using f3
    · have hc' : (c == parentCompiler env.m) = false := by
        cases h : (c == parentCompiler env.m) with
        | false => rfl
        | true => exact absurd h hc
      by_cases hm : childName package c ∈ obsPackages
      · obtain ⟨st', hrun, f1, f2, f3, f4⟩ :=
          ih (skipsAdd (checksAdd st (childName package c)) (childName package c))
        refine ⟨st', ?_, ?_, ?_, ?_, by simpa [skipsAdd, checksAdd] using f4⟩
        · simp only [childLoop, hc', Bool.false_eq_true, if_false, childName] at hrun ⊢
          rw [if_pos (by simpa [childName] using hm)]
          simpa [childName] using hrun
        · simp only [f1, nonParentFamilies, List.filter_cons, hc']
          simp [skipsAdd, checksAdd]
        · simp only [f2]
          simp [nonParentFamilies, absentChildren, List.filter_cons, hc', hm,
            skipsAdd, checksAdd]
        · simp only [f3]
          simp [nonParentFamilies, absentChildren, List.filter_cons, hc', hm,
            skipsAdd, checksAdd]
      · obtain ⟨stA, hA, a1, a2, a3, a4, a5⟩ := addPackage_ok env dryRun
          (checksAdd st (childName package c))
          (childName package c) false true (some c) (some parentIdent) none
          hserv (fun h => absurd h (by decide)) (fun _ => ⟨rfl, hlink⟩) htr
        obtain ⟨st', hrun, f1, f2, f3, f4⟩ := ih stA
        refine ⟨st', ?_, ?_, ?_, ?_, ?_⟩
        · simp only [childLoop, hc', Bool.false_eq_true, if_false, childName] at hA hrun ⊢
          rw [if_neg (by simpa [childName] using hm)]
          rw [hA]
          exact hrun
        · rw [f1, a1]
          simp [nonParentFamilies, List.filter_cons, hc', checksAdd]
        · rw [f2, a2]
          simp [nonParentFamilies, absentChildren, List.filter_cons, hc', hm, checksAdd]
        · rw [f3, a4]
          simp [nonParentFamilies, absentChildren, List.filter_cons, hc', hm, checksAdd]
        · simp [f4, a5, checksAdd]

end ObsConfig

namespace ObsConfig

/-- A compiler-dependent package is not standalone. -/
theorem isStandalone_false_of_isCompilerDep {m : Manifest} {p : String}
    (hcd : isCompilerDep m p = true) : isStandalone m p = false := by
  unfold isStandalone
  unfold isCompilerDep at hcd
  cases h1 : (getAttrs m p).compiler_dep <;> simp [h1] at hcd ⊢

/-- Complete characterization of one compiler-dependent loop iteration
under readable templates and a working transport: the parent identity
(base + "-" + global parent compiler) is evaluated first, created when
absent, and then every non-parent family of the resolved list is
evaluated in order and created when absent as a child of that parent. -/
theorem processPackage_compilerDep (env : Env) (dryRun : Bool)
    (obsPackages : List String) (st : RunState) (p : String)
    (hcd : isCompilerDep env.m p = true)
    (hserv : ∃ s, env.fs env.m.serviceFile = some s)
    (hlink : ∃ s, env.fs env.m.linkFile_compiler = some s)
    (hgroup : ((p ++ "-" ++ parentCompiler env.m) ∈ obsPackages) ∨
      ∃ g, checkPackageGroup env.m.groups p = some g)
    (htr : ∀ c, env.transport c = true) :
    ∃ st', processPackage env dryRun obsPackages st p = .ok st' ∧
      st'.checks = st.checks ++ [p ++ "-" ++ parentCompiler env.m] ++
        (nonParentFamilies env.m (queryCompilers env.m p)).map (childName p) ∧
      st'.creates = st.creates ++
        (if (p ++ "-" ++ parentCompiler env.m) ∈ obsPackages then []
         else [mkCreateAction env (p ++ "-" ++ parentCompiler env.m) true none none
           (some p)]) ++
        (absentChildren obsPackages p
          (nonParentFamilies env.m (queryCompilers env.m p))).map
          (fun c => mkCreateAction env (childName p c) false (some c)
            (some (p ++ "-" ++ parentCompiler env.m)) none) ∧
      st'.buildsToCancel = st.buildsToCancel ++
        (if (p ++ "-" ++ parentCompiler env.m) ∈ obsPackages then []
         else [p ++ "-" ++ parentCompiler env.m]) ++
        (absentChildren obsPackages p
          (nonParentFamilies env.m (queryCompilers env.m p))).map (childName p) ∧
      st'.errorLogs = st.errorLogs := by
  have hsa : isStandalone env.m p = false := isStandalone_false_of_isCompilerDep hcd
  by_cases hp : (p ++ "-" ++ parentCompiler env.m) ∈ obsPackages
  · obtain ⟨st', hrun, f1, f2, f3, f4⟩ := childLoop_ok env dryRun obsPackages p
      (p ++ "-" ++ parentCompiler env.m) hserv hlink htr (queryCompilers env.m p)
      (skipsAdd (checksAdd st (p ++ "-" ++ parentCompiler env.m))
        (p ++ "-" ++ parentCompiler env.m))
    refine ⟨st', ?_, ?_, ?_, ?_, by simpa [skipsAdd, checksAdd] using f4⟩
    · simp only [processPackage, hsa, hcd, Bool.false_eq_true, if_false, if_true]
      rw [if_pos hp]
      exact hrun
    · simp [f1, skipsAdd, checksAdd]
    · simp [f2, hp, skipsAdd, checksAdd]
    · simp [f3, hp, skipsAdd, checksAdd]
  · have hgroup' : ∃ g, checkPackageGroup env.m.groups p = some g := by
      rcases hgroup with h | h
      · exact absurd h hp
      · exact h
    obtain ⟨stA, hA, a1, a2, a3, a4, a5⟩ := addPackage_ok env dryRun
      (checksAdd st (p ++ "-" ++ parentCompiler env.m))
      (p ++ "-" ++ parentCompiler env.m) true true none none (some p)
      hserv (fun _ => hgroup') (fun h => absurd h (by decide)) htr
    obtain ⟨st', hrun, f1, f2, f3, f4⟩ := childLoop_ok env dryRun obsPackages p
      (p ++ "-" ++ parentCompiler env.m) hserv hlink htr (queryCompilers env.m p) stA
    refine ⟨st', ?_, ?_, ?_, ?_, ?_⟩
    · simp only [processPackage, hsa, hcd, Bool.false_eq_true, if_false, if_true]
      rw [if_neg hp]
      rw [hA]
      exact hrun
    · simp [f1, a1, checksAdd]
    · simp [f2, a2, hp, checksAdd]
    · simp [f3, a4, hp, checksAdd]
    · simp [f4, a5, checksAdd]

end ObsConfig

namespace ObsConfig

/-- C1: for a base-name with compiler_dep=true, mpi_dep=false and resolved
compiler family list [A, B, C] with A the primary (parent) family, the
reconciliation iteration evaluates exactly the three identities
base-A, base-B, base-C in that order (the presence-check trace), and the
CreateActions it emits are, in order: base-A as parent first (when
absent), then base-B and base-C as children of base-A (when absent) — so
a child's CreateAction is never emitted before its parent's creation or
presence check. -/
theorem compilerDep_expansion_order (env : Env) (dryRun : Bool)
    (obsPackages : List String) (st : RunState) (p A B C g sc lc : String)
    (hattrs : getAttrs env.m p =
      { compiler_dep := true, mpi_dep := false, compiler_families := none })
    (hfam : env.m.compilerFamilies = [A, B, C])
    (hBA : B ≠ A) (hCA : C ≠ A)
    (hserv : env.fs env.m.serviceFile = some sc)
    (hlink : env.fs env.m.linkFile_compiler = some lc)
    (hgroup : checkPackageGroup env.m.groups p = some g)
    (htr : ∀ c, env.transport c = true) :
    ∃ st', processPackage env dryRun obsPackages st p = .ok st' ∧
      st'.checks = st.checks ++ [p ++ "-" ++ A, p ++ "-" ++ B, p ++ "-" ++ C] ∧
      st'.creates = st.creates ++
        ((if p ++ "-" ++ A ∈ obsPackages then [] else
            [mkCreateAction env (p ++ "-" ++ A) true none none (some p)]) ++
         ((if p ++ "-" ++ B ∈ obsPackages then [] else
            [mkCreateAction env (p ++ "-" ++ B) false (some B)
              (some (p ++ "-" ++ A)) none]) ++
          (if p ++ "-" ++ C ∈ obsPackages then [] else
            [mkCreateAction env (p ++ "-" ++ C) false (some C)
              (some (p ++ "-" ++ A)) none]))) := by
  have hcd : isCompilerDep env.m p = true := by simp [isCompilerDep, hattrs]
  have hpc : parentCompiler env.m = A := by simp [parentCompiler, hfam]
  have hqc : queryCompilers env.m p = [A, B, C] := by
    simp [queryCompilers, hattrs, hfam]
  obtain ⟨st', hrun, f1, f2, f3, f4⟩ := processPackage_compilerDep env dryRun
    obsPackages st p hcd ⟨sc, hserv⟩ ⟨lc, hlink⟩ (Or.inr ⟨g, hgroup⟩) htr
  have hnp : nonParentFamilies env.m (queryCompilers env.m p) = [B, C] := by
    rw [hqc]
    simp [nonParentFamilies, hpc, hBA, hCA]
  refine ⟨st', hrun, ?_, ?_⟩
  · rw [f1, hnp, hpc]
    simp [childName]
  · rw [f2, hnp, hpc]
    by_cases hB2 : p ++ "-" ++ B ∈ obsPackages <;>
      by_cases hC2 : p ++ "-" ++ C ∈ obsPackages <;>
        simp [absentChildren, childName, hB2, hC2]

/-- Manifest for the expansion witnesses: three compiler families with
gnu9 primary, one compiler-dependent package "widget". -/
def mExp : Manifest :=
  { serviceFile := "service.tmpl"
    linkFile_compiler := "link.tmpl"
    compilerFamilies := ["gnu9", "llvm", "arm"]
    mpiFamilies := ["mpich"]
    noBuildPatterns := []
    groups := [("core", ["widget"])]
    attrs := [("widget",
      { compiler_dep := true, mpi_dep := false, compiler_families := none })]
    components := ["widget"] }

/-- Environment for the expansion witnesses: templates readable and a
transport that always succeeds. -/
def envExp : Env :=
  { m := mExp
    fs := fun _ => some "tmpl"
    search := fun _ _ => false
    transport := fun _ => true }

/-- C1 witness: on the concrete three-family manifest with an empty
snapshot, the iteration for "widget" checks widget-gnu9, widget-llvm,
widget-arm in order and creates the parent first, then the two
children. -/
theorem compilerDep_expansion_order_witness :
    (getAttrs envExp.m "widget" =
        { compiler_dep := true, mpi_dep := false, compiler_families := none }
      ∧ envExp.m.compilerFamilies = ["gnu9", "llvm", "arm"]
      ∧ "llvm" ≠ "gnu9" ∧ "arm" ≠ "gnu9"
      ∧ checkPackageGroup envExp.m.groups "widget" = some "core")
    ∧ (∃ st', processPackage envExp true [] {} "widget" = .ok st' ∧
        st'.checks = ["widget-gnu9", "widget-llvm", "widget-arm"] ∧
        st'.creates =
          [mkCreateAction envExp "widget-gnu9" true none none (some "widget"),
           mkCreateAction envExp "widget-llvm" false (some "llvm")
             (some "widget-gnu9") none,
           mkCreateAction envExp "widget-arm" false (some "arm")
             (some "widget-gnu9") none]) := by
  refine ⟨⟨rfl, rfl, by decide, by decide, rfl⟩, ?_⟩
  obtain ⟨st', hrun, f1, f2⟩ := compilerDep_expansion_order envExp true [] {}
    "widget" "gnu9" "llvm" "arm" "core" "tmpl" "tmpl"
    rfl rfl (by decide) (by decide) rfl rfl rfl (fun _ => rfl)
  refine ⟨st', hrun, ?_, ?_⟩
  · rw [f1]; rfl
  · rw [f2]; rfl

end ObsConfig

namespace ObsConfig

/-- C9: for a compiler-dependent package with a per-package
compiler-family override list, the parent identity is always
base + "-" + global primary family — even when the override list does
not contain that family — and one child is generated for every override
family other than the global primary, each linked (parentName) to that
global-primary parent.  Stated against an empty remote snapshot so every
expanded identity is created. -/
theorem override_parent_is_global_primary (env : Env) (dryRun : Bool)
    (st : RunState) (p A g sc lc : String) (ovr : List String)
    (hattrs : getAttrs env.m p =
      { compiler_dep := true, mpi_dep := false, compiler_families := some ovr })
    (hpc : parentCompiler env.m = A)
    (hserv : env.fs env.m.serviceFile = some sc)
    (hlink : env.fs env.m.linkFile_compiler = some lc)
    (hgroup : checkPackageGroup env.m.groups p = some g)
    (htr : ∀ c, env.transport c = true) :
    ∃ st', processPackage env dryRun [] st p = .ok st' ∧
      st'.checks = st.checks ++
        (p ++ "-" ++ A) :: (ovr.filter (fun f => !(f == A))).map
          (fun f => p ++ "-" ++ f) ∧
      st'.creates = st.creates ++
        mkCreateAction env (p ++ "-" ++ A) true none none (some p) ::
          (ovr.filter (fun f => !(f == A))).map
            (fun f => mkCreateAction env (p ++ "-" ++ f) false (some f)
              (some (p ++ "-" ++ A)) none) := by
  have hcd : isCompilerDep env.m p = true := by simp [isCompilerDep, hattrs]
  have hqc : queryCompilers env.m p = ovr := by simp [queryCompilers, hattrs]
  obtain ⟨st', hrun, f1, f2, f3, f4⟩ := processPackage_compilerDep env dryRun
    [] st p hcd ⟨sc, hserv⟩ ⟨lc, hlink⟩ (Or.inr ⟨g, hgroup⟩) htr
  have hnp : nonParentFamilies env.m (queryCompilers env.m p) =
      ovr.filter (fun f => !(f == A)) := by
    rw [hqc]
    simp [nonParentFamilies, hpc]
  refine ⟨st', hrun, ?_, ?_⟩
  · rw [f1, hnp, hpc]
    simp [childName]
  · rw [f2, hnp, hpc]
    simp [absentChildren, childName]

/-- Manifest for the override witness: global families [gnu9, llvm] with
gnu9 primary; package "plugin" overrides its families to [llvm, arm] —
a list that does not contain the global primary at all. -/
def mOvr : Manifest :=
  { serviceFile := "service.tmpl"
    linkFile_compiler := "link.tmpl"
    compilerFamilies := ["gnu9", "llvm"]
    mpiFamilies := ["mpich"]
    noBuildPatterns := []
    groups := [("core", ["plugin"])]
    attrs := [("plugin",
      { compiler_dep := true, mpi_dep := false,
        compiler_families := some ["llvm", "arm"] })]
    components := ["plugin"] }

/-- Environment for the override witness. -/
def envOvr : Env :=
  { m := mOvr
    fs := fun _ => some "tmpl"
    search := fun _ _ => false
    transport := fun _ => true }

/-- C9 witness: the override list [llvm, arm] lacks the global primary
gnu9, yet the parent created is plugin-gnu9, and children plugin-llvm
and plugin-arm are linked to it. -/
theorem override_parent_is_global_primary_witness :
    (getAttrs envOvr.m "plugin" =
        { compiler_dep := true, mpi_dep := false,
          compiler_families := some ["llvm", "arm"] }
      ∧ parentCompiler envOvr.m = "gnu9"
      ∧ checkPackageGroup envOvr.m.groups "plugin" = some "core")
    ∧ (∃ st', processPackage envOvr true [] {} "plugin" = .ok st' ∧
        st'.checks = ["plugin-gnu9", "plugin-llvm", "plugin-arm"] ∧
        st'.creates =
          [mkCreateAction envOvr "plugin-gnu9" true none none (some "plugin"),
           mkCreateAction envOvr "plugin-llvm" false (some "llvm")
             (some "plugin-gnu9") none,
           mkCreateAction envOvr "plugin-arm" false (some "arm")
             (some "plugin-gnu9") none]) := by
  refine ⟨⟨rfl, rfl, rfl⟩, ?_⟩
  obtain ⟨st', hrun, f1, f2⟩ := override_parent_is_global_primary envOvr true {}
    "plugin" "gnu9" "core" "tmpl" "tmpl" ["llvm", "arm"]
    rfl rfl rfl rfl rfl (fun _ => rfl)
  refine ⟨st', hrun, ?_, ?_⟩
  · rw [f1]; rfl
  · rw [f2]; rfl

end ObsConfig

namespace ObsConfig

/-- C10: the group lookup runs only when a parent identity is actually
created.  (1) A groupless standalone package whose identity is present is
skipped with no error; (2) only an absent standalone identity triggers
the fatal ungrouped error; (3) a groupless compiler-dependent package
whose parent identity is present completes fine — its children are
created with no group check; (4) an absent parent identity triggers the
fatal ungrouped error on the base name. -/
theorem group_check_only_on_parent_creation :
    (∀ (env : Env) (dryRun : Bool) (obsPackages : List String) (st : RunState)
        (p : String),
        checkPackageGroup env.m.groups p = none →
        isStandalone env.m p = true → p ∈ obsPackages →
        processPackage env dryRun obsPackages st p =
          .ok { st with checks := st.checks ++ [p], skips := st.skips ++ [p] })
    ∧ (∀ (env : Env) (dryRun : Bool) (obsPackages : List String) (st : RunState)
        (p sc : String),
        checkPackageGroup env.m.groups p = none →
        isStandalone env.m p = true → p ∉ obsPackages →
        env.fs env.m.serviceFile = some sc →
        processPackage env dryRun obsPackages st p =
          .error ("package " ++ p ++
            " not assocated with any groups, please check config"))
    ∧ (∀ (env : Env) (dryRun : Bool) (obsPackages : List String) (st : RunState)
        (p : String),
        checkPackageGroup env.m.groups p = none →
        isCompilerDep env.m p = true →
        (p ++ "-" ++ parentCompiler env.m) ∈ obsPackages →
        (∃ s, env.fs env.m.serviceFile = some s) →
        (∃ s, env.fs env.m.linkFile_compiler = some s) →
        (∀ c, env.transport c = true) →
        ∃ st', processPackage env dryRun obsPackages st p = .ok st')
    ∧ (∀ (env : Env) (dryRun : Bool) (obsPackages : List String) (st : RunState)
        (p sc : String),
        checkPackageGroup env.m.groups p = none →
        isCompilerDep env.m p = true →
        (p ++ "-" ++ parentCompiler env.m) ∉ obsPackages →
        env.fs env.m.serviceFile = some sc →
        processPackage env dryRun obsPackages st p =
          .error ("package " ++ p ++
            " not assocated with any groups, please check config")) := by
  refine ⟨?_, ?_, ?_, ?_⟩
  · intro env dryRun obsPackages st p _hng hsa hm
    simp [processPackage, hsa, hm, skipsAdd, checksAdd]
  · intro env dryRun obsPackages st p sc hng hsa hm hserv
    simp [processPackage, hsa, hm, addPackage, hserv, hng]
  · intro env dryRun obsPackages st p _hng hcd hp hserv hlink htr
    obtain ⟨st', hrun, _⟩ := processPackage_compilerDep env dryRun obsPackages st p
      hcd hserv hlink (Or.inl hp) htr
    exact ⟨st', hrun⟩
  · intro env dryRun obsPackages st p sc hng hcd hp hserv
    have hsa : isStandalone env.m p = false := isStandalone_false_of_isCompilerDep hcd
    simp [processPackage, hsa, hcd, hp, addPackage, hserv, hng]

/-- Manifest for the C10 witness: "loner" (standalone) and "orphan"
(compiler-dependent) are declared but belong to no group. -/
def mNoGrp : Manifest :=
  { serviceFile := "service.tmpl"
    linkFile_compiler := "link.tmpl"
    compilerFamilies := ["gnu9", "llvm"]
    mpiFamilies := ["mpich"]
    noBuildPatterns := []
    groups := [("core", ["other"])]
    attrs := [("orphan",
      { compiler_dep := true, mpi_dep := false, compiler_families := none })]
    components := ["loner", "orphan"] }

/-- Environment for the C10 witness. -/
def envNoGrp : Env :=
  { m := mNoGrp
    fs := fun _ => some "tmpl"
    search := fun _ _ => false
    transport := fun _ => true }

/-- C10 witness: the four scenarios at concrete inputs — present groupless
identities are skipped without error, children are created without a
group check, and only absent parents raise the ungrouped error. -/
theorem group_check_only_on_parent_creation_witness :
    (checkPackageGroup envNoGrp.m.groups "loner" = none
      ∧ isStandalone envNoGrp.m "loner" = true
      ∧ checkPackageGroup envNoGrp.m.groups "orphan" = none
      ∧ isCompilerDep envNoGrp.m "orphan" = true)
    ∧ processPackage envNoGrp true ["loner"] {} "loner" =
        .ok { checks := ["loner"], skips := ["loner"] }
    ∧ processPackage envNoGrp true [] {} "loner" =
        .error "package loner not assocated with any groups, please check config"
    ∧ (∃ st', processPackage envNoGrp true ["orphan-gnu9"] {} "orphan" = .ok st')
    ∧ processPackage envNoGrp true [] {} "orphan" =
        .error "package orphan not assocated with any groups, please check config" := by
  refine ⟨⟨rfl, rfl, rfl, rfl⟩, ?_, ?_, ?_, ?_⟩
  · exact group_check_only_on_parent_creation.1 envNoGrp true ["loner"] {} "loner"
      rfl rfl (by decide)
  · exact group_check_only_on_parent_creation.2.1 envNoGrp true [] {} "loner" "tmpl"
      rfl rfl (by decide) rfl
  · exact group_check_only_on_parent_creation.2.2.1 envNoGrp true ["orphan-gnu9"] {}
      "orphan" rfl rfl (by decide) ⟨"tmpl", rfl⟩ ⟨"tmpl", rfl⟩ (fun _ => rfl)
  · exact group_check_only_on_parent_creation.2.2.2 envNoGrp true [] {} "orphan" "tmpl"
      rfl rfl (by decide) rfl

end ObsConfig

namespace ObsConfig

/-- A successful `addPackage` appends exactly its package name to the
created-identity list. -/
theorem createdNames_addPackage {env : Env} {dryRun : Bool} {st st' : RunState}
    {package : String} {parent isCompDep : Bool}
    {compiler parentName gitName : Option String}
    (h : addPackage env dryRun st package parent isCompDep compiler parentName gitName
        = .ok st') :
    createdNames st' = createdNames st ++ [package] := by
  obtain ⟨_, a2, _, _, _⟩ := addPackage_ok_inv h
  simp [createdNames, a2, mkCreateAction]

/-- The created-identity list only grows across the child sweep. -/
theorem childLoop_mono {env : Env} {dryRun : Bool} {obsPackages : List String}
    {package parentIdent : String} :
    ∀ {compilers : List String} {st st' : RunState},
      childLoop env dryRun obsPackages package parentIdent compilers st = .ok st' →
      ∀ x ∈ createdNames st, x ∈ createdNames st' := by
  intro compilers
  induction compilers with
  | nil =>
    intro st st' h x hx
    simp only [childLoop] at h
    cases h
    exact hx
  | cons c rest ih =>
    intro st st' h x hx
    simp only [childLoop] at h
    split at h
    · exact ih h x hx
    · split at h
      · exact ih h x hx
      · split at h
        · cases h
        · rename_i st2 hadd
          refine ih h x ?_
          rw [createdNames_addPackage hadd]
          exact List.mem_append_left _ hx

/-- The created-identity list only grows across one loop iteration. -/
theorem processPackage_mono {env : Env} {dryRun : Bool} {obsPackages : List String}
    {st st' : RunState} {p : String}
    (h : processPackage env dryRun obsPackages st p = .ok st') :
    ∀ x ∈ createdNames st, x ∈ createdNames st' := by
  intro x hx
  simp only [processPackage, unsupportedBranch] at h
  split at h
  · split at h
    · cases h
      exact hx
    · rw [createdNames_addPackage h]
      exact List.mem_append_left _ hx
  · split at h
    · split at h
      · cases h
      · rename_i st2 heq
        split at heq
        · cases heq
          exact childLoop_mono h x hx
        · refine childLoop_mono h x ?_
          rw [createdNames_addPackage heq]
          exact List.mem_append_left _ hx
    · split at h
      · cases h
        exact hx
      · cases h
        exact hx

/-- The created-identity list only grows across the whole loop. -/
theorem reconcileList_mono {env : Env} {dryRun : Bool} {obsPackages : List String} :
    ∀ {comps : List String} {st st' : RunState},
      reconcileList env dryRun obsPackages comps st = .ok st' →
      ∀ x ∈ createdNames st, x ∈ createdNames st' := by
  intro comps
  induction comps with
  | nil =>
    intro st st' h x hx
    simp only [reconcileList] at h
    cases h
    exact hx
  | cons p rest ih =>
    intro st st' h x hx
    simp only [reconcileList] at h
    split at h
    · cases h
    · rename_i stm hstep
      exact ih h x (processPackage_mono hstep x hx)

/-- Every non-parent family the child sweep reaches ends up either
present in the snapshot or among the created identities. -/
theorem childLoop_covered {env : Env} {dryRun : Bool} {obsPackages : List String}
    {package parentIdent : String} :
    ∀ {compilers : List String} {st st' : RunState},
      childLoop env dryRun obsPackages package parentIdent compilers st = .ok st' →
      ∀ c ∈ compilers, (c == parentCompiler env.m) = false →
        (package ++ "-" ++ c) ∈ obsPackages ∨
        (package ++ "-" ++ c) ∈ createdNames st' := by
  intro compilers
  induction compilers with
  | nil =>
    intro st st' _ c hc
    cases hc
  | cons c rest ih =>
    intro st st' h d hd hdp
    simp only [childLoop] at h
    split at h
    · rename_i hc
      rcases List.mem_cons.mp hd with rfl | hd'
      · rw [hc] at hdp
        cases hdp
      · exact ih h d hd' hdp
    · split at h
      · rename_i hc hm
        rcases List.mem_cons.mp hd with rfl | hd'
        · exact Or.inl hm
        · exact ih h d hd' hdp
      · split at h
        · cases h
        · rename_i hc hm st2 hadd
          rcases List.mem_cons.mp hd with rfl | hd'
          · refine Or.inr (childLoop_mono h _ ?_)
            rw [createdNames_addPackage hadd]
            exact List.mem_append_right _ (by simp)
          · exact ih h d hd' hdp

end ObsConfig

namespace ObsConfig

/-- When every non-parent child identity is already present, the child
sweep succeeds, creates nothing, queues nothing and issues nothing. -/
theorem childLoop_all_present {env : Env} {dryRun : Bool} {obsPackages : List String}
    {package parentIdent : String} :
    ∀ (compilers : List String),
      (∀ c ∈ compilers, (c == parentCompiler env.m) = false →
        (package ++ "-" ++ c) ∈ obsPackages) →
      ∀ st, ∃ st', childLoop env dryRun obsPackages package parentIdent compilers st
          = .ok st' ∧
        st'.creates = st.creates ∧ st'.buildsToCancel = st.buildsToCancel ∧
        st'.remoteCommands = st.remoteCommands := by
  intro compilers
  induction compilers with
  | nil =>
    intro _ st
    exact ⟨st, rfl, rfl, rfl, rfl⟩
  | cons c rest ih =>
    intro hall st
    by_cases hc : (c == parentCompiler env.m) = true
    · obtain ⟨st', h1, h2, h3, h4⟩ := ih (fun d hd hdp => hall d (by simp [hd]) hdp) st
      refine ⟨st', ?_, h2, h3, h4⟩
      simp only [childLoop, hc, if_true]
      exact h1
    · have hc' : (c == parentCompiler env.m) = false := by
        cases hx : (c == parentCompiler env.m) with
        | false => rfl
        | true => exact absurd hx hc
      have hm : (package ++ "-" ++ c) ∈ obsPackages := hall c (by simp) hc'
      obtain ⟨st', h1, h2, h3, h4⟩ := ih (fun d hd hdp => hall d (by simp [hd]) hdp)
        { st with checks := st.checks ++ [package ++ "-" ++ c],
                  skips := st.skips ++ [package ++ "-" ++ c] }
      refine ⟨st', ?_, by simpa using h2, by simpa using h3, by simpa using h4⟩
      simp only [childLoop, hc', Bool.false_eq_true, if_false]
      rw [if_pos hm]
      exact h1

/-- Second-run simulation for one loop iteration: if the iteration
succeeded against `obsPackages` ending in total state `st1`, then against
any snapshot containing both `obsPackages` and every identity created by
the end of the first run, the iteration succeeds from any start state
without creating, queueing or issuing anything. -/
theorem processPackage_second {env : Env} {dryRun : Bool} {obsPackages : List String}
    {st st1 : RunState} {p : String}
    (h : processPackage env dryRun obsPackages st p = .ok st1)
    {snap' : List String}
    (hsub : ∀ x, x ∈ obsPackages → x ∈ snap')
    (hcov : ∀ x, x ∈ createdNames st1 → x ∈ snap') :
    ∀ st₂, ∃ st₂', processPackage env dryRun snap' st₂ p = .ok st₂' ∧
      st₂'.creates = st₂.creates ∧ st₂'.buildsToCancel = st₂.buildsToCancel ∧
      st₂'.remoteCommands = st₂.remoteCommands := by
  intro st₂
  simp only [processPackage, unsupportedBranch] at h ⊢
  split at h
  · rename_i hsa
    rw [if_pos hsa]
    have hp' : p ∈ snap' := by
      split at h
      · exact hsub p (by assumption)
      · refine hcov p ?_
        rw [createdNames_addPackage h]
        exact List.mem_append_right _ (by simp)
    rw [if_pos hp']
    exact ⟨_, rfl, rfl, rfl, rfl⟩
  · rename_i hsa
    rw [if_neg hsa]
    split at h
    · rename_i hcd
      rw [if_pos hcd]
      split at h
      · cases h
      · rename_i st2 heq
        have hp' : (p ++ "-" ++ parentCompiler env.m) ∈ snap' := by
          split at heq
          · rename_i hpm
            exact hsub _ hpm
          · refine hcov _ (childLoop_mono h _ ?_)
            rw [createdNames_addPackage heq]
            exact List.mem_append_right _ (by simp)
        rw [if_pos hp']
        have hall : ∀ c ∈ queryCompilers env.m p,
            (c == parentCompiler env.m) = false → (p ++ "-" ++ c) ∈ snap' := by
          intro c hc hcp
          rcases childLoop_covered h c hc hcp with hin | hin
          · exact hsub _ hin
          · exact hcov _ hin
        obtain ⟨st₂', h1, h2, h3, h4⟩ := childLoop_all_present
          (queryCompilers env.m p) hall
          { st₂ with checks := st₂.checks ++ [p ++ "-" ++ parentCompiler env.m],
                     skips := st₂.skips ++ [p ++ "-" ++ parentCompiler env.m] }
        exact ⟨st₂', h1, by simpa using h2, by simpa using h3, by simpa using h4⟩
    · rename_i hcd
      rw [if_neg hcd]
      split at h
      · rename_i hmpi
        rw [if_pos hmpi]
        exact ⟨st₂, rfl, rfl, rfl, rfl⟩
      · rename_i hmpi
        rw [if_neg hmpi]
        exact ⟨_, rfl, rfl, rfl, rfl⟩

/-- Second-run simulation for the whole loop. -/
theorem reconcileList_second {env : Env} {dryRun : Bool} {obsPackages : List String} :
    ∀ {comps : List String} {st st1 : RunState},
      reconcileList env dryRun obsPackages comps st = .ok st1 →
      ∀ {snap' : List String}, (∀ x, x ∈ obsPackages → x ∈ snap') →
        (∀ x, x ∈ createdNames st1 → x ∈ snap') →
      ∀ st₂, ∃ st₂', reconcileList env dryRun snap' comps st₂ = .ok st₂' ∧
        st₂'.creates = st₂.creates ∧ st₂'.buildsToCancel = st₂.buildsToCancel ∧
        st₂'.remoteCommands = st₂.remoteCommands := by
  intro comps
  induction comps with
  | nil =>
    intro st st1 h snap' hsub hcov st₂
    simp only [reconcileList] at h ⊢
    exact ⟨st₂, rfl, rfl, rfl, rfl⟩
  | cons p rest ih =>
    intro st st1 h snap' hsub hcov st₂
    simp only [reconcileList] at h ⊢
    split at h
    · cases h
    · rename_i stm hstep
      obtain ⟨st₂m, h1, h2, h3, h4⟩ := processPackage_second hstep hsub
        (fun x hx => hcov x (reconcileList_mono h x hx)) st₂
      obtain ⟨st₂', g1, g2, g3, g4⟩ := ih h hsub hcov st₂m
      rw [h1]
      exact ⟨st₂', g1, by rw [g2, h2], by rw [g3, h3], by rw [g4, h4]⟩

/-- C2: idempotence of reconciliation.  If a run against a snapshot
succeeds, then a second run against the registry as the first run left
it (the snapshot plus every identity the first run created — the only
mutation between the runs being the first run's own creations) succeeds
and emits zero CreateActions. -/
theorem reconcile_idempotent (env : Env) (dryRun : Bool)
    (obsPackages : List String) (st1 : RunState)
    (h : reconcile env dryRun obsPackages = .ok st1) :
    ∃ st2, reconcile env dryRun (obsPackages ++ createdNames st1) = .ok st2 ∧
      st2.creates = [] := by
  unfold reconcile at h ⊢
  obtain ⟨st2, hr, f1, _, _⟩ := reconcileList_second h
    (fun x hx => List.mem_append_left _ hx)
    (fun x hx => List.mem_append_right _ hx) {}
  exact ⟨st2, hr, by simpa using f1⟩

end ObsConfig

namespace ObsConfig

/-- Result of the first dry run over `envExp` with an empty snapshot. -/
def stRun1 : RunState :=
  { checks := ["widget-gnu9", "widget-llvm", "widget-arm"]
    creates := [mkCreateAction envExp "widget-gnu9" true none none (some "widget"),
                mkCreateAction envExp "widget-llvm" false (some "llvm")
                  (some "widget-gnu9") none,
                mkCreateAction envExp "widget-arm" false (some "arm")
                  (some "widget-gnu9") none]
    skips := []
    buildsToCancel := ["widget-gnu9", "widget-llvm", "widget-arm"]
    remoteCommands := []
    errorLogs := [] }

/-- C2 witness: the first concrete run creates three identities; the
second run, against the snapshot extended by exactly those identities,
creates none. -/
theorem reconcile_idempotent_witness :
    reconcile envExp true [] = .ok stRun1
    ∧ ∃ st2, reconcile envExp true ([] ++ createdNames stRun1) = .ok st2 ∧
        st2.creates = [] :=
  ⟨rfl, reconcile_idempotent envExp true [] stRun1 rfl⟩

end ObsConfig

namespace ObsConfig

/-- Forget the issued remote commands (the only field that can differ
between a simulation run and a real run with a working transport). -/
def eraseRemote (st : RunState) : RunState := { st with remoteCommands := [] }

/-- One package addition in simulation mode versus real mode with a
working transport: identical outcome apart from the issued commands. -/
theorem addPackage_sim (env : Env) (st : RunState) (package : String)
    (parent isCompDep : Bool) (compiler parentName gitName : Option String)
    (htr : ∀ c, env.transport c = true) :
    addPackage env true (eraseRemote st) package parent isCompDep compiler
        parentName gitName
      = (addPackage env false st package parent isCompDep compiler
          parentName gitName).map eraseRemote := by
  cases hfs : env.fs env.m.serviceFile with
  | none => simp [addPackage, hfs, Except.map]
  | some s =>
    cases parent with
    | true =>
      cases hg : checkPackageGroup env.m.groups (gitName.getD package) with
      | none => simp [addPackage, hfs, hg, Except.map]
      | some g => simp [addPackage, hfs, hg, issue, htr, eraseRemote, Except.map]
    | false =>
      cases isCompDep with
      | true =>
        cases hl : env.fs env.m.linkFile_compiler with
        | none => simp [addPackage, hfs, hl, issue, htr, Except.map]
        | some s2 => simp [addPackage, hfs, hl, issue, htr, eraseRemote, Except.map]
      | false => simp [addPackage, hfs, issue, htr, Except.map]

end ObsConfig

namespace ObsConfig

/-- `checksAdd` commutes with forgetting remote commands. -/
theorem checksAdd_erase (st : RunState) (x : String) :
    checksAdd (eraseRemote st) x = eraseRemote (checksAdd st x) := rfl

/-- `skipsAdd` commutes with forgetting remote commands. -/
theorem skipsAdd_erase (st : RunState) (x : String) :
    skipsAdd (eraseRemote st) x = eraseRemote (skipsAdd st x) := rfl

/-- Child sweep in simulation mode versus real mode with a working
transport. -/
theorem childLoop_sim (env : Env) (obsPackages : List String)
    (package parentIdent : String) (htr : ∀ c, env.transport c = true) :
    ∀ (compilers : List String) (st : RunState),
      childLoop env true obsPackages package parentIdent compilers (eraseRemote st) =
        (childLoop env false obsPackages package parentIdent compilers st).map
          eraseRemote := by
  intro compilers
  induction compilers with
  | nil => intro st; rfl
  | cons c rest ih =>
    intro st
    simp only [childLoop]
    split
    · exact ih st
    · split
      · rw [checksAdd_erase, skipsAdd_erase]
        exact ih (skipsAdd (checksAdd st (package ++ "-" ++ c)) (package ++ "-" ++ c))
      · rw [checksAdd_erase,
          addPackage_sim env (checksAdd st (package ++ "-" ++ c)) (package ++ "-" ++ c)
            false true (some c) (some parentIdent) none htr]
        cases hadd : addPackage env false (checksAdd st (package ++ "-" ++ c))
            (package ++ "-" ++ c) false true (some c) (some parentIdent) none with
        | error e => simp [Except.map]
        | ok st2 =>
          simp only [Except.map]
          exact ih st2

/-- One loop iteration in simulation mode versus real mode with a working
transport. -/
theorem processPackage_sim (env : Env) (obsPackages : List String) (p : String)
    (htr : ∀ c, env.transport c = true) :
    ∀ st : RunState,
      processPackage env true obsPackages (eraseRemote st) p =
        (processPackage env false obsPackages st p).map eraseRemote := by
  intro st
  simp only [processPackage, unsupportedBranch]
  split
  · split
    · rw [checksAdd_erase, skipsAdd_erase]
      rfl
    · rw [checksAdd_erase]
      exact addPackage_sim env (checksAdd st p) p true false none none none htr
  · split
    · by_cases hp : p ++ "-" ++ parentCompiler env.m ∈ obsPackages
      · simp only [hp, if_true]
        rw [checksAdd_erase, skipsAdd_erase]
        exact childLoop_sim env obsPackages p _ htr _
          (skipsAdd (checksAdd st (p ++ "-" ++ parentCompiler env.m))
            (p ++ "-" ++ parentCompiler env.m))
      · simp only [hp, if_false]
        rw [checksAdd_erase,
          addPackage_sim env (checksAdd st (p ++ "-" ++ parentCompiler env.m))
            (p ++ "-" ++ parentCompiler env.m) true true none none (some p) htr]
        cases hadd : addPackage env false
            (checksAdd st (p ++ "-" ++ parentCompiler env.m))
            (p ++ "-" ++ parentCompiler env.m) true true none none (some p) with
        | error e => simp [Except.map]
        | ok st2 =>
          simp only [Except.map]
          exact childLoop_sim env obsPackages p _ htr _ st2
    · split
      · rfl
      · rfl

/-- The whole loop in simulation mode versus real mode with a working
transport. -/
theorem reconcileList_sim (env : Env) (obsPackages : List String)
    (htr : ∀ c, env.transport c = true) :
    ∀ (comps : List String) (st : RunState),
      reconcileList env true obsPackages comps (eraseRemote st) =
        (reconcileList env false obsPackages comps st).map eraseRemote := by
  intro comps
  induction comps with
  | nil => intro st; rfl
  | cons p rest ih =>
    intro st
    simp only [reconcileList]
    rw [processPackage_sim env obsPackages p htr st]
    cases hstep : processPackage env false obsPackages st p with
    | error e => simp [Except.map]
    | ok stm =>
      simp only [Except.map]
      exact ih stm

/-- Dry-run lock flush issues nothing and never fails. -/
theorem cancelNewBuilds_dry (env : Env) :
    ∀ builds : List String, cancelNewBuilds env true builds = ([], none) := by
  intro builds
  induction builds with
  | nil => rfl
  | cons p rest ih => simp [cancelNewBuilds, ih]

/-- Real-mode lock flush with a working transport locks everything in
order and never fails. -/
theorem cancelNewBuilds_all_ok (env : Env) (htr : ∀ c, env.transport c = true) :
    ∀ builds : List String,
      cancelNewBuilds env false builds = (builds.map lockCmd, none) := by
  intro builds
  induction builds with
  | nil => rfl
  | cons p rest ih => simp [cancelNewBuilds, htr, ih]

/-- Whole run in simulation mode versus real mode with a working
transport: identical outcome apart from the issued remote commands. -/
theorem fullRun_sim (env : Env) (obsPackages : List String)
    (htr : ∀ c, env.transport c = true) :
    fullRun env true obsPackages = (fullRun env false obsPackages).map eraseRemote := by
  unfold fullRun reconcile
  have h1 : reconcileList env true obsPackages env.m.components {} =
      (reconcileList env false obsPackages env.m.components {}).map eraseRemote :=
    reconcileList_sim env obsPackages htr env.m.components {}
  rw [h1]
  cases h : reconcileList env false obsPackages env.m.components {} with
  | error e => simp [Except.map]
  | ok st =>
    simp only [Except.map]
    rw [cancelNewBuilds_dry env, cancelNewBuilds_all_ok env htr]
    simp [eraseRemote]

end ObsConfig

namespace ObsConfig

/-- In dry-run mode `addPackage` never consults the transport. -/
theorem addPackage_dry_transport (env : Env) (t : String → Bool) (st : RunState)
    (package : String) (parent isCompDep : Bool)
    (compiler parentName gitName : Option String) :
    addPackage { env with transport := t } true st package parent isCompDep
        compiler parentName gitName
      = addPackage env true st package parent isCompDep compiler parentName gitName := rfl

/-- In dry-run mode the child sweep never consults the transport. -/
theorem childLoop_dry_transport (env : Env) (t : String → Bool)
    (obsPackages : List String) (package parentIdent : String) :
    ∀ (compilers : List String) (st : RunState),
      childLoop { env with transport := t } true obsPackages package parentIdent
          compilers st
        = childLoop env true obsPackages package parentIdent compilers st := by
  intro compilers
  induction compilers with
  | nil => intro st; rfl
  | cons c rest ih =>
    intro st
    simp only [childLoop]
    by_cases hc : (c == parentCompiler env.m) = true
    · simp only [hc, if_true]
      exact ih st
    · simp only [hc, if_false]
      by_cases hm2 : package ++ "-" ++ c ∈ obsPackages
      · simp only [hm2, if_true]
        exact ih _
      · simp only [hm2, if_false]
        rw [addPackage_dry_transport]
        cases hadd : addPackage env true (checksAdd st (package ++ "-" ++ c))
            (package ++ "-" ++ c) false true (some c) (some parentIdent) none with
        | error e => rfl
        | ok st2 => exact ih st2

/-- In dry-run mode one loop iteration never consults the transport. -/
theorem processPackage_dry_transport (env : Env) (t : String → Bool)
    (obsPackages : List String) (p : String) (st : RunState) :
    processPackage { env with transport := t } true obsPackages st p
      = processPackage env true obsPackages st p := by
  simp only [processPackage, unsupportedBranch]
  split
  · split
    · rfl
    · exact addPackage_dry_transport env t _ p true false none none none
  · split
    · by_cases hp : p ++ "-" ++ parentCompiler env.m ∈ obsPackages
      · simp only [hp, if_true]
        exact childLoop_dry_transport env t obsPackages p _ _ _
      · simp only [hp, if_false]
        rw [addPackage_dry_transport]
        cases hadd : addPackage env true
            (checksAdd st (p ++ "-" ++ parentCompiler env.m))
            (p ++ "-" ++ parentCompiler env.m) true true none none (some p) with
        | error e => rfl
        | ok st2 => exact childLoop_dry_transport env t obsPackages p _ _ st2
    · split
      · rfl
      · rfl

/-- In dry-run mode the whole loop never consults the transport. -/
theorem reconcileList_dry_transport (env : Env) (t : String → Bool)
    (obsPackages : List String) :
    ∀ (comps : List String) (st : RunState),
      reconcileList { env with transport := t } true obsPackages comps st
        = reconcileList env true obsPackages comps st := by
  intro comps
  induction comps with
  | nil => intro st; rfl
  | cons p rest ih =>
    intro st
    simp only [reconcileList]
    rw [processPackage_dry_transport]
    cases h : processPackage env true obsPackages st p with
    | error e => rfl
    | ok stm => exact ih stm

/-- In dry-run mode the whole run never consults the transport. -/
theorem fullRun_dry_transport (env : Env) (t : String → Bool)
    (obsPackages : List String) :
    fullRun { env with transport := t } true obsPackages
      = fullRun env true obsPackages := by
  unfold fullRun reconcile
  rw [reconcileList_dry_transport]
  cases h : reconcileList env true obsPackages env.m.components {} with
  | error e => rfl
  | ok st => simp only [cancelNewBuilds_dry]

/-- C3: simulation (dry-run) mode issues no remote mutation and makes the
same decisions as real mode.  (1) With a working transport, the real run
and the simulated run agree exactly up to the issued remote commands —
same fatal error or same checks, CreateActions, SkipLog entries and
Pending-Lock Set; (2) the simulated run is independent of the transport
(it never invokes it); (3) a simulated run issues zero remote
commands. -/
theorem simulation_no_mutation_same_decisions (env : Env)
    (obsPackages : List String) (htr : ∀ c, env.transport c = true) :
    fullRun env true obsPackages = (fullRun env false obsPackages).map eraseRemote
    ∧ (∀ t, fullRun { env with transport := t } true obsPackages =
        fullRun env true obsPackages)
    ∧ (∀ st, fullRun env true obsPackages = .ok st → st.remoteCommands = []) := by
  refine ⟨fullRun_sim env obsPackages htr,
    fun t => fullRun_dry_transport env t obsPackages, ?_⟩
  intro st hst
  rw [fullRun_sim env obsPackages htr] at hst
  cases h : fullRun env false obsPackages with
  | error e =>
    rw [h] at hst
    cases hst
  | ok st' =>
    rw [h] at hst
    simp only [Except.map] at hst
    cases hst
    rfl

/-- C3 witness: the concrete three-family environment has an all-success
transport, and the equivalences hold for it. -/
theorem simulation_no_mutation_same_decisions_witness :
    (∀ c, envExp.transport c = true)
    ∧ (fullRun envExp true [] = (fullRun envExp false []).map eraseRemote
      ∧ (∀ t, fullRun { envExp with transport := t } true [] =
          fullRun envExp true [])
      ∧ (∀ st, fullRun envExp true [] = .ok st → st.remoteCommands = [])) :=
  ⟨fun _ => rfl, simulation_no_mutation_same_decisions envExp [] (fun _ => rfl)⟩

end ObsConfig
